import Mathlib

/-
Verification development for the airport-meteo-api METAR pipeline.

Shallow embedding of the meteorological subsystem:
  * src/airportapi/src/core/domain/meteo.py        (MetarReportIn, MetarReport)
  * src/airportapi/src/infrastructure/repositories/meteo.py  (MeteoRepository)
  * src/airportapi/src/infrastructure/services/meteo.py      (MeteoService.get_stats)
  * src/airportapi/src/infrastructure/dto/meteostats.py      (MeteoStatsDTO)
  * src/metarscanner/task.py                       (collector task)

Conventions: Python floats are modelled as rationals, datetimes as naturals,
Python None as Option.none.  Python exceptions are modelled with Except and
the PyError type below.  The PostgreSQL metars table is a list of rows plus
an id counter.
-/

/-- Python-level exceptions that the embedded code can raise. -/
inductive PyError where
  | typeError        -- TypeError (e.g. numpy reduction over an object array holding None,
                     -- or pickle.loads applied to SQL NULL)
  | valueError       -- ValueError (numpy zero-size reduction)
  | validationError  -- pydantic ValidationError
  | indexError       -- IndexError (list subscript out of range)
  | parserError      -- metar library ParserError (mandatory groups undecodable)
  | connectionError  -- aiohttp transport error or timeout (not a ClientResponseError)
  deriving Repr, DecidableEq

/-- A sky layer: (cloud cover token, optional altitude), as produced by the parser. -/
abbrev SkyLayer := String × Option ℚ

/-- MetarReportIn (src/airportapi/src/core/domain/meteo.py): the input METAR
report pydantic model.  Every field is Optional in the source. -/
structure MetarReportIn where
  icao_code : Option String
  date_time : Option Nat
  wind_speed : Option ℚ
  wind_direction : Option ℚ
  wind_var_from : Option ℚ
  wind_var_to : Option ℚ
  wind_gust : Option ℚ
  rvr : Option ℚ
  rvr_direction : Option ℚ
  dew_point : Option ℚ
  sky : Option (List SkyLayer)
  temp : Option ℚ
  qnh : Option ℚ
  deriving Repr, DecidableEq

/-- MetarReport: the stored form, adding the id assigned by the store. -/
structure MetarReport extends MetarReportIn where
  id : Nat
  deriving Repr, DecidableEq

/-- The value of the sky column: sqlalchemy PickleType stores pickle.dumps of
the python list; a Python None value is stored as SQL NULL instead (modelled
by wrapping the column value in Option). -/
structure Pickled where
  val : List SkyLayer
  deriving Repr, DecidableEq

/-- pickle.dumps for a sky list. -/
def pickleDumps (l : List SkyLayer) : Pickled := ⟨l⟩

/-- pickle.loads on bytes produced by pickleDumps. -/
def pickleLoads (p : Pickled) : List SkyLayer := p.val

/-- One row of the metars table (src/airportapi/src/db.py): scalar columns
are nullable, sky holds pickled bytes or NULL. -/
structure MetarRow where
  id : Nat
  icao_code : Option String
  date_time : Option Nat
  wind_speed : Option ℚ
  wind_direction : Option ℚ
  wind_var_from : Option ℚ
  wind_var_to : Option ℚ
  wind_gust : Option ℚ
  rvr : Option ℚ
  rvr_direction : Option ℚ
  dew_point : Option ℚ
  sky : Option Pickled
  temp : Option ℚ
  qnh : Option ℚ
  deriving Repr, DecidableEq

/-- The metars table state: rows plus the serial id counter. -/
structure MeteoDB where
  nextId : Nat
  rows : List MetarRow
  deriving Repr, DecidableEq

/-- Well-formedness of the table: every existing id is below the counter. -/
def MeteoDB.WF (db : MeteoDB) : Prop := ∀ row ∈ db.rows, row.id < db.nextId

instance (db : MeteoDB) : Decidable db.WF := by
  unfold MeteoDB.WF; infer_instance

/-- The row written by metar_table.insert().values(**report.model_dump()):
scalar fields are bound as-is, the sky list goes through the PickleType bind
processor (pickled when present, NULL when None). -/
def rowOfReport (rid : Nat) (r : MetarReportIn) : MetarRow :=
  { id := rid
    icao_code := r.icao_code
    date_time := r.date_time
    wind_speed := r.wind_speed
    wind_direction := r.wind_direction
    wind_var_from := r.wind_var_from
    wind_var_to := r.wind_var_to
    wind_gust := r.wind_gust
    rvr := r.rvr
    rvr_direction := r.rvr_direction
    dew_point := r.dew_point
    sky := r.sky.map pickleDumps
    temp := r.temp
    qnh := r.qnh }

/-- database.execute on an insert: appends the row under the current serial
value and returns that new id. -/
def MeteoDB.insert (db : MeteoDB) (r : MetarReportIn) : MeteoDB × Nat :=
  ({ nextId := db.nextId + 1, rows := db.rows ++ [rowOfReport db.nextId r] }, db.nextId)

/-- The read-back of one fetched row when its sky column is non-NULL:
dict(record) with sky unpickled, validated into MetarReport. -/
def reportOfRow (row : MetarRow) : MetarReport :=
  { id := row.id
    icao_code := row.icao_code
    date_time := row.date_time
    wind_speed := row.wind_speed
    wind_direction := row.wind_direction
    wind_var_from := row.wind_var_from
    wind_var_to := row.wind_var_to
    wind_gust := row.wind_gust
    rvr := row.rvr
    rvr_direction := row.rvr_direction
    dew_point := row.dew_point
    sky := row.sky.map pickleLoads
    temp := row.temp
    qnh := row.qnh }

/-- MeteoRepository._map_report on a non-None record: it runs
pickle.loads(report_dict["sky"]); when the sky column is NULL this is
pickle.loads(None), a TypeError. -/
def map_report (row : MetarRow) : Except PyError MetarReport :=
  match row.sky with
  | none => .error .typeError
  | some _ => .ok (reportOfRow row)

/-- The list comprehension [MetarReport(**self._map_report(r)) for r in reports]:
evaluated left to right, the first failing row raises. -/
def mapReports : List MetarRow → Except PyError (List MetarReport)
  | [] => .ok []
  | row :: rest =>
    match map_report row with
    | .error e => .error e
    | .ok m =>
      match mapReports rest with
      | .error e => .error e
      | .ok ms => .ok (m :: ms)

/-- MeteoRepository.get_by_id: fetch_one on id equality, then _map_report;
a missing row returns None (the mapper is only applied when a row exists). -/
def get_by_id (db : MeteoDB) (report_id : Nat) : Except PyError (Option MetarReport) :=
  match db.rows.find? (fun row => row.id == report_id) with
  | none => .ok none
  | some row =>
    match map_report row with
    | .error e => .error e
    | .ok m => .ok (some m)

/-- MeteoRepository.add_report: insert the dumped model, then re-fetch the
stored form under the id returned by the insert. -/
def add_report (db : MeteoDB) (report : MetarReportIn) :
    MeteoDB × Except PyError (Option MetarReport) :=
  let ins := db.insert report
  (ins.1, get_by_id ins.1 ins.2)

/-- MeteoRepository.remove_report: the guard if self.get_by_id(report_id):
tests a coroutine object (the call is never awaited), which is always truthy,
so the DELETE statement always runs; the method returns Python None, modelled
as (none : Option Bool). -/
def remove_report (db : MeteoDB) (report_id : Nat) : MeteoDB × Option Bool :=
  ({ db with rows := db.rows.filter (fun row => row.id ≠ report_id) }, none)

/-- SQL date_time >= start on a nullable column: NULL compares to nothing. -/
def sqlGe (dt : Option Nat) (sv : Nat) : Bool :=
  match dt with
  | some t => decide (sv ≤ t)
  | none => false

/-- SQL date_time <= end on a nullable column: NULL compares to nothing. -/
def sqlLe (dt : Option Nat) (ev : Nat) : Bool :=
  match dt with
  | some t => decide (t ≤ ev)
  | none => false

/-- The query_conditions list built by MeteoRepository.get_by_airport: the
icao equality always, each bound condition only when the bound is given
(a datetime object is always truthy, so the Python truthiness test on the
bound is a None test). -/
def query_conditions (icao : String) (s e : Option Nat) : List (MetarRow → Bool) :=
  let base : List (MetarRow → Bool) := [fun row => row.icao_code == some icao]
  let withStart : List (MetarRow → Bool) :=
    match s with
    | some sv => base ++ [fun (row : MetarRow) => sqlGe row.date_time sv]
    | none => base
  match e with
  | some ev => withStart ++ [fun (row : MetarRow) => sqlLe row.date_time ev]
  | none => withStart

/-- ORDER BY date_time ASC over the nullable column: PostgreSQL sorts NULLs
last in ascending order. -/
def dtLe (a b : Option Nat) : Bool :=
  match a, b with
  | none, none => true
  | none, some _ => false
  | some _, none => true
  | some x, some y => decide (x ≤ y)

/-- The ORDER BY key order on rows. -/
def rowLe (a b : MetarRow) : Prop := dtLe a.date_time b.date_time = true

instance : DecidableRel rowLe := fun a b =>
  inferInstanceAs (Decidable (dtLe a.date_time b.date_time = true))

/-- The same order on the returned reports. -/
def reportLe (a b : MetarReport) : Prop := dtLe a.date_time b.date_time = true

/-- MeteoRepository.get_by_airport: filter by the accumulated conditions,
order by date_time ascending, map every fetched row through _map_report. -/
def get_by_airport (db : MeteoDB) (icao : String) (s e : Option Nat) :
    Except PyError (List MetarReport) :=
  let filtered := db.rows.filter (fun row => (query_conditions icao s e).all (fun c => c row))
  mapReports (List.insertionSort rowLe filtered)

/-- The time-window membership test stated by the spec: bounds are inclusive,
an absent bound is unbounded on that side, and a row without a timestamp lies
in no bounded window. -/
def inWindowSpec (s e dt : Option Nat) : Bool :=
  match dt with
  | some t =>
    (match s with
     | some sv => decide (sv ≤ t)
     | none => true)
      && (match e with
          | some ev => decide (t ≤ ev)
          | none => true)
  | none => s.isNone && e.isNone

/-- A numpy float value: reductions over empty float arrays can yield NaN. -/
inductive NpFloat where
  | nan
  | val (q : ℚ)
  deriving Repr, DecidableEq

/-- np.array(xs).mean() for a list built from possibly-None fields: a None
makes the array dtype=object and the add reduction raises TypeError; an empty
float array yields NaN (with only a RuntimeWarning); otherwise the arithmetic
mean. -/
def npMean (l : List (Option ℚ)) : Except PyError NpFloat :=
  if l.any (fun o => o.isNone) then .error .typeError
  else
    match l.filterMap id with
    | [] => .ok .nan
    | v :: vs => .ok (.val ((v :: vs).sum / ((v :: vs).length : ℚ)))

/-- np.array(xs).min(): TypeError on an object array holding None, ValueError
on a zero-size reduction, otherwise the minimum. -/
def npMin (l : List (Option ℚ)) : Except PyError NpFloat :=
  if l.any (fun o => o.isNone) then .error .typeError
  else
    match l.filterMap id with
    | [] => .error .valueError
    | v :: vs => .ok (.val (vs.foldl min v))

/-- np.array(xs).max(): TypeError on an object array holding None, ValueError
on a zero-size reduction, otherwise the maximum. -/
def npMax (l : List (Option ℚ)) : Except PyError NpFloat :=
  if l.any (fun o => o.isNone) then .error .typeError
  else
    match l.filterMap id with
    | [] => .error .valueError
    | v :: vs => .ok (.val (vs.foldl max v))

/-- MeteoStatsDTO (src/airportapi/src/infrastructure/dto/meteostats.py):
start_time and end_time are mandatory datetime fields, not Optional. -/
structure MeteoStatsDTO where
  start_time : Nat
  end_time : Nat
  icao_code : String
  avg_temperature : NpFloat
  min_temperature : NpFloat
  max_temperature : NpFloat
  avg_wind_speed : NpFloat
  min_wind_speed : NpFloat
  max_wind_speed : NpFloat
  avg_rvr : NpFloat
  min_rvr : NpFloat
  max_rvr : NpFloat
  avg_dew_point : NpFloat
  min_dew_point : NpFloat
  max_dew_point : NpFloat
  avg_qhn : NpFloat
  min_qhn : NpFloat
  max_qhn : NpFloat
  deriving Repr, DecidableEq

/-- Pydantic validation of MeteoStatsDTO(start_time=.., end_time=.., ..):
passing None for a mandatory datetime raises ValidationError. -/
def mkMeteoStatsDTO (s e : Option Nat) (icao : String)
    (aT nT xT aW nW xW aR nR xR aD nD xD aQ nQ xQ : NpFloat) :
    Except PyError MeteoStatsDTO :=
  match s, e with
  | some sv, some ev =>
    .ok { start_time := sv, end_time := ev, icao_code := icao
          avg_temperature := aT, min_temperature := nT, max_temperature := xT
          avg_wind_speed := aW, min_wind_speed := nW, max_wind_speed := xW
          avg_rvr := aR, min_rvr := nR, max_rvr := xR
          avg_dew_point := aD, min_dew_point := nD, max_dew_point := xD
          avg_qhn := aQ, min_qhn := nQ, max_qhn := xQ }
  | _, _ => .error .validationError

/-- MeteoService.get_stats (src/airportapi/src/infrastructure/services/meteo.py):
fetch the filtered reports, build one possibly-None list per metric, run the
numpy reductions in the keyword-argument order of the DTO call (avg, min, max
per metric; temperature, wind speed, rvr, dew point, qnh), then validate the
DTO.  Errors propagate to the caller. -/
def get_stats (db : MeteoDB) (icao : String) (s e : Option Nat) :
    Except PyError MeteoStatsDTO := do
  let reports ← get_by_airport db icao s e
  let temperatures := reports.map (fun r => r.temp)
  let wind_speeds := reports.map (fun r => r.wind_speed)
  let rvrs := reports.map (fun r => r.rvr)
  let dew_points := reports.map (fun r => r.dew_point)
  let qnhs := reports.map (fun r => r.qnh)
  let aT ← npMean temperatures
  let nT ← npMin temperatures
  let xT ← npMax temperatures
  let aW ← npMean wind_speeds
  let nW ← npMin wind_speeds
  let xW ← npMax wind_speeds
  let aR ← npMean rvrs
  let nR ← npMin rvrs
  let xR ← npMax rvrs
  let aD ← npMean dew_points
  let nD ← npMin dew_points
  let xD ← npMax dew_points
  let aQ ← npMean qnhs
  let nQ ← npMin qnhs
  let xQ ← npMax qnhs
  mkMeteoStatsDTO s e icao aT nT xT aW nW xW aR nR xR aD nD xD aQ nQ xQ

/- ------------------------------------------------------------------ -/
/- Collector (src/metarscanner/task.py)                               -/
/- ------------------------------------------------------------------ -/

/-- One airport entry as served by the airport/all endpoint. -/
structure Airport where
  icao_code : String
  name : String
  deriving Repr, DecidableEq

/-- The outcome of the HTTP GET against the external METAR source for one
station: an error status (raise_for_status fires, a ClientResponseError), a
transport-level failure (connection error or timeout, raised by session.get
or the body read and not a ClientResponseError), or a text body, given as
its list of lines (text.split on newline). -/
inductive FetchOutcome where
  | httpError
  | transportError
  | ok (lines : List String)
  deriving Repr, DecidableEq

/-- The external world one collector run interacts with: the body served per
station code, and whether the ingestion endpoint parses and stores a given
posted report (a server-side failure surfaces as an HTTP error status). -/
structure CollectorEnv where
  fetch : String → FetchOutcome
  parseOk : String → Bool

/-- The body handling inside fetch_metar: text.split newline, subscript [1].
A body with fewer than two lines raises IndexError, which is not a
ClientResponseError and so escapes the try block. -/
def extract_report (lines : List String) : Except PyError String :=
  match lines[1]? with
  | some l => .ok l
  | none => .error .indexError

/-- fetch_metar (src/metarscanner/task.py): the except clause names only
aiohttp.ClientResponseError, so an HTTP error status is caught, printed and
turned into None, while a transport error or timeout escapes the try block;
a body goes through extract_report. -/
def fetch_metar (env : CollectorEnv) (icao : String) : Except PyError (Option String) :=
  match env.fetch icao with
  | .httpError => .ok none
  | .transportError => .error .connectionError
  | .ok lines =>
    match extract_report lines with
    | .error e => .error e
    | .ok l => .ok (some l)

/-- post_metar: posts the report; any error status from the ingestion
endpoint (including a server-side parse failure) is caught and printed.
Returns the list of observations that got stored ([] or the single report). -/
def post_metar (env : CollectorEnv) (metar_data : String) : List String :=
  if env.parseOk metar_data then [metar_data] else []

/-- process_airport: skip an empty station code; fetch; a None result (caught
fetch failure) is skipped; so is an empty report line (Python falsy test on
the string); otherwise post.  Uncaught exceptions propagate. -/
def process_airport (env : CollectorEnv) (airport : Airport) :
    Except PyError (List String) :=
  if airport.icao_code = "" then .ok []
  else
    match fetch_metar env airport.icao_code with
    | .error e => .error e
    | .ok none => .ok []
    | .ok (some metar_data) =>
      if metar_data = "" then .ok []
      else .ok (post_metar env metar_data)

/-- The collector main coroutine: one task per airport, gathered; the stored
observations of all tasks, or the first uncaught exception. -/
def collector_main (env : CollectorEnv) : List Airport → Except PyError (List String)
  | [] => .ok []
  | airport :: rest =>
    match process_airport env airport with
    | .error e => .error e
    | .ok stored =>
      match collector_main env rest with
      | .error e => .error e
      | .ok more => .ok (stored ++ more)

/-- The per-station outcome the spec describes: the report of a station whose
fetch and parse both succeed, none for a station the spec says to skip
(empty code, or any failed fetch — HTTP error, transport error or timeout —
or a failed parse). -/
def stationStored (env : CollectorEnv) (airport : Airport) : Option String :=
  if airport.icao_code = "" then none
  else
    match env.fetch airport.icao_code with
    | .httpError => none
    | .transportError => none
    | .ok lines =>
      match lines[1]? with
      | none => none
      | some l => if l = "" then none else if env.parseOk l then some l else none

/-- A response body of the external METAR source: NOAA serves a date header
line followed by the report content lines. -/
structure SourceBody where
  header : String
  reportLines : List String
  deriving Repr, DecidableEq

/-- The text of a source body as a line list. -/
def SourceBody.toText (b : SourceBody) : List String := b.header :: b.reportLines

/- ------------------------------------------------------------------ -/
/- Report parser                                                      -/
/- ------------------------------------------------------------------ -/

/-- The space character (token separator of the report grammar). -/
def spaceChar : Char := Char.ofNat 32

/-- The slash separating temperature and dew point. -/
def slashChar : Char := Char.ofNat 47

/-- Trailing marker of the time group. -/
def zChar : Char := 'Z'

/-- Suffix letters of the wind group (knots). -/
def kChar : Char := 'K'

/-- Second suffix letter of the wind group. -/
def tChar : Char := 'T'

/-- Gust separator inside the wind group. -/
def gChar : Char := 'G'

/-- Variable-wind marker (VRB direction, dddVddd variability). -/
def vChar : Char := 'V'

/-- Remaining letters of the VRB direction marker. -/
def rChar : Char := 'R'

/-- Third letter of the VRB direction marker. -/
def bChar : Char := 'B'

/-- Sign marker of temperatures (M for minus). -/
def mChar : Char := 'M'

/-- Leading letter of the QNH pressure group. -/
def qChar : Char := 'Q'

/-- Split a character list at every occurrence of the separator. -/
def splitOnChar (sep : Char) : List Char → List (List Char)
  | [] => [[]]
  | c :: rest =>
    let r := splitOnChar sep rest
    if c == sep then [] :: r
    else
      match r with
      | [] => [[c]]
      | t :: ts => (c :: t) :: ts

/-- Space-tokenization of a raw report line; empty tokens are dropped. -/
def tokenize (report : String) : List String :=
  ((splitOnChar spaceChar report.toList).filter (fun t => !t.isEmpty)).map String.mk

/-- Decode a non-empty all-digit character run as a number. -/
def digitsToNat? (cs : List Char) : Option Nat :=
  if cs.isEmpty then none
  else if cs.all Char.isDigit then
    some (cs.foldl (fun n c => n * 10 + (c.toNat - 48)) 0)
  else none

/-- Modelled from the spec: the station sub-grammar of the external metar
library (absent from src/). The station code is the leading token of the
report body, a 4-character alphanumeric code. -/
def decodeStation (tokens : List String) : Option String :=
  match tokens with
  | [] => none
  | t :: _ =>
    if t.length == 4 && t.toList.all Char.isAlphanum then some t else none

/-- Modelled from the spec: the time sub-grammar, a 6-digit day-hour-minute
group with trailing Z. -/
def timeGroup? (t : String) : Option Nat :=
  let cs := t.toList
  if cs.length == 7 && (cs.take 6).all Char.isDigit && cs.getLast? == some zChar then
    digitsToNat? (cs.take 6)
  else none

/-- Modelled from the spec: the decoded observation time, taken from the
first token matching the time sub-grammar. -/
def decodeTime (tokens : List String) : Option Nat :=
  tokens.findSome? timeGroup?

/-- Modelled from the spec: the wind sub-grammar dddssKT with optional Gss
gust part and VRB in place of the digit direction.  A token that fails the
sub-grammar contributes nothing. -/
def windGroup? (t : String) : Option (Option ℚ × ℚ × Option ℚ) :=
  let cs := t.toList
  if cs.length < 7 then none
  else if !(cs.drop (cs.length - 2) == [kChar, tChar]) then none
  else
    let body := cs.take (cs.length - 2)
    let dirCs := body.take 3
    let rest := body.drop 3
    let dirPart : Option (Option ℚ) :=
      if dirCs == [vChar, rChar, bChar] then some none
      else
        match digitsToNat? dirCs with
        | some d => some (some (d : ℚ))
        | none => none
    match dirPart with
    | none => none
    | some dirv =>
      if rest.contains gChar then
        let sp := rest.takeWhile (fun c => c != gChar)
        let gu := (rest.dropWhile (fun c => c != gChar)).drop 1
        match digitsToNat? sp, digitsToNat? gu with
        | some s, some g => some (dirv, (s : ℚ), some (g : ℚ))
        | _, _ => none
      else
        match digitsToNat? rest with
        | some s => some (dirv, (s : ℚ), none)
        | none => none

/-- Modelled from the spec: the wind group of the report, decoded
independently of every other field. -/
def decodeWind (tokens : List String) : Option (Option ℚ × ℚ × Option ℚ) :=
  tokens.findSome? windGroup?

/-- The decoded wind speed. -/
def decodeWindSpeed (tokens : List String) : Option ℚ :=
  (decodeWind tokens).map (fun w => w.2.1)

/-- The decoded wind direction (absent for VRB winds). -/
def decodeWindDir (tokens : List String) : Option ℚ :=
  (decodeWind tokens).bind (fun w => w.1)

/-- The decoded wind gust. -/
def decodeWindGust (tokens : List String) : Option ℚ :=
  (decodeWind tokens).bind (fun w => w.2.2)

/-- Modelled from the spec: the wind-variability sub-grammar dddVddd. -/
def varGroup? (t : String) : Option (ℚ × ℚ) :=
  let cs := t.toList
  if cs.length == 7 && cs.get? 3 == some vChar then
    match digitsToNat? (cs.take 3), digitsToNat? (cs.drop 4) with
    | some a, some b => some ((a : ℚ), (b : ℚ))
    | _, _ => none
  else none

/-- The decoded wind-variability bounds. -/
def decodeWindVar (tokens : List String) : Option (ℚ × ℚ) :=
  tokens.findSome? varGroup?

/-- Modelled from the spec: the visibility sub-grammar, a 4-digit metre
group. -/
def visGroup? (t : String) : Option ℚ :=
  let cs := t.toList
  if cs.length == 4 && cs.all Char.isDigit then
    (digitsToNat? cs).map (fun n => (n : ℚ))
  else none

/-- The decoded visibility. -/
def decodeVis (tokens : List String) : Option ℚ :=
  tokens.findSome? visGroup?

/-- Modelled from the spec: a signed temperature run, M prefixing minus. -/
def signedVal? (cs : List Char) : Option ℚ :=
  match cs with
  | [] => none
  | c :: rest =>
    if c == mChar then (digitsToNat? rest).map (fun n => -(n : ℚ))
    else (digitsToNat? cs).map (fun n => (n : ℚ))

/-- Modelled from the spec: the temperature/dew-point sub-grammar TT/DD. -/
def tempGroup? (t : String) : Option (ℚ × ℚ) :=
  match splitOnChar slashChar t.toList with
  | [a, b] =>
    match signedVal? a, signedVal? b with
    | some x, some y => some (x, y)
    | _, _ => none
  | _ => none

/-- The decoded temperature. -/
def decodeTemp (tokens : List String) : Option ℚ :=
  (tokens.findSome? tempGroup?).map (fun p => p.1)

/-- The decoded dew point. -/
def decodeDewpt (tokens : List String) : Option ℚ :=
  (tokens.findSome? tempGroup?).map (fun p => p.2)

/-- Modelled from the spec: the QNH pressure sub-grammar Qdddd. -/
def pressGroup? (t : String) : Option ℚ :=
  match t.toList with
  | [] => none
  | c :: rest =>
    if c == qChar && rest.length == 4 then
      (digitsToNat? rest).map (fun n => (n : ℚ))
    else none

/-- The decoded pressure. -/
def decodePress (tokens : List String) : Option ℚ :=
  tokens.findSome? pressGroup?

/-- The recognized sky-layer cover tokens. -/
def skyTypes : List String := ["FEW", "SCT", "BKN", "OVC", "CLR", "SKC", "NSC"]

/-- Modelled from the spec: one sky-condition token, a cover word plus an
optional 3-digit height in hundreds of feet; unrecognized tokens are
skipped. -/
def skyGroup? (t : String) : Option SkyLayer :=
  let cs := t.toList
  let cover := String.mk (cs.take 3)
  let rest := cs.drop 3
  if skyTypes.contains cover then
    if rest.isEmpty then some (cover, none)
    else
      match digitsToNat? rest with
      | some h => some (cover, some ((h * 100 : Nat) : ℚ))
      | none => none
  else none

/-- The decoded sky layers, in report order. -/
def decodeSky (tokens : List String) : List SkyLayer :=
  tokens.filterMap skyGroup?

/-- The parse result object of the external metar library: per-field decoded
values, absent where the corresponding token is missing or fails its
sub-grammar. -/
structure MetarObs where
  station_id : String
  time : Nat
  wind_speed : Option ℚ
  wind_dir : Option ℚ
  wind_dir_from : Option ℚ
  wind_dir_to : Option ℚ
  wind_gust : Option ℚ
  vis : Option ℚ
  vis_dir : Option ℚ
  dewpt : Option ℚ
  sky : List SkyLayer
  temp : Option ℚ
  press : Option ℚ
  deriving Repr, DecidableEq

/-- Modelled from the spec: Metar.Metar of the external metar library, which
is absent from src/.  Each measurable field is decoded independently from
the token list; only undecodable mandatory station/time tokens fail the
whole call (ParserError). -/
def Metar.parse (report : String) : Except PyError MetarObs :=
  let tokens := tokenize report
  match decodeStation tokens, decodeTime tokens with
  | some st, some tm =>
    .ok { station_id := st
          time := tm
          wind_speed := decodeWindSpeed tokens
          wind_dir := decodeWindDir tokens
          wind_dir_from := (decodeWindVar tokens).map (fun p => p.1)
          wind_dir_to := (decodeWindVar tokens).map (fun p => p.2)
          wind_gust := decodeWindGust tokens
          vis := decodeVis tokens
          vis_dir := none
          dewpt := decodeDewpt tokens
          sky := decodeSky tokens
          temp := decodeTemp tokens
          press := decodePress tokens }
  | _, _ => .error .parserError

/-- MetarReportIn.from_text_report (src/airportapi/src/core/domain/meteo.py):
build the pydantic model from the library observation; each attribute is
carried over when present; sky is always built by the list comprehension
(a list, possibly empty, never None). -/
def MetarReportIn.from_text_report (report : String) : Except PyError MetarReportIn :=
  match Metar.parse report with
  | .error e => .error e
  | .ok obs =>
    .ok { icao_code := some obs.station_id
          date_time := some obs.time
          wind_speed := obs.wind_speed
          wind_direction := obs.wind_dir
          wind_var_from := obs.wind_dir_from
          wind_var_to := obs.wind_dir_to
          wind_gust := obs.wind_gust
          rvr := obs.vis
          rvr_direction := obs.vis_dir
          dew_point := obs.dewpt
          sky := some (obs.sky.map (fun x => (x.1, x.2)))
          temp := obs.temp
          qnh := obs.press }

/-- MeteoRepository.add_text_report: parse the text (a ParserError
propagates), insert the dumped model, re-fetch the stored form. -/
def add_text_report (db : MeteoDB) (text_report : String) :
    MeteoDB × Except PyError (Option MetarReport) :=
  match MetarReportIn.from_text_report text_report with
  | .error e => (db, .error e)
  | .ok report =>
    let ins := db.insert report
    (ins.1, get_by_id ins.1 ins.2)

/- ------------------------------------------------------------------ -/
/- Fixtures and helper lemmas                                         -/
/- ------------------------------------------------------------------ -/

/-- A metars row with the given id, station, timestamp and metric values,
a present (empty) sky column and no wind extras. -/
def mkRow (rid : Nat) (icao : String) (dt : Option Nat)
    (t w r d q : Option ℚ) : MetarRow :=
  { id := rid, icao_code := some icao, date_time := dt
    wind_speed := w, wind_direction := w, wind_var_from := none
    wind_var_to := none, wind_gust := none, rvr := r, rvr_direction := none
    dew_point := d, sky := some (pickleDumps []), temp := t, qnh := q }

theorem mapReports_ok (l : List MetarRow) (h : ∀ row ∈ l, row.sky.isSome = true) :
    mapReports l = .ok (l.map reportOfRow) := by
  induction l with
  | nil => rfl
  | cons row rest ih =>
    have hr := h row (List.mem_cons_self _ _)
    have ihr := ih (fun x hx => h x (List.mem_cons_of_mem _ hx))
    obtain ⟨p, hp⟩ := Option.isSome_iff_exists.mp hr
    simp [mapReports, map_report, hp, ihr]

theorem conds_eq_window (icao : String) (s e : Option Nat) (row : MetarRow) :
    (query_conditions icao s e).all (fun c => c row) =
      ((row.icao_code == some icao) && inWindowSpec s e row.date_time) := by
  cases s <;> cases e <;> cases hdt : row.date_time <;>
    simp [query_conditions, inWindowSpec, sqlGe, sqlLe, hdt, Bool.and_assoc]

theorem dtLe_total (a b : Option Nat) : dtLe a b = true ∨ dtLe b a = true := by
  cases a <;> cases b <;> simp [dtLe]
  omega

theorem dtLe_trans {a b c : Option Nat} (h1 : dtLe a b = true) (h2 : dtLe b c = true) :
    dtLe a c = true := by
  cases a <;> cases b <;> cases c <;> simp_all [dtLe]
  omega

instance : IsTotal MetarRow rowLe where
  total a b := dtLe_total a.date_time b.date_time

instance : IsTrans MetarRow rowLe where
  trans _ _ _ hab hbc := dtLe_trans hab hbc

theorem get_by_id_none_of_absent (db : MeteoDB) (rid : Nat)
    (h : ∀ row ∈ db.rows, (row.id == rid) = false) : get_by_id db rid = .ok none := by
  unfold get_by_id
  rw [List.find?_eq_none.mpr (fun x hx => by simp [h x hx])]

theorem find_append_right {α : Type} (p : α → Bool) (l1 l2 : List α)
    (h : ∀ x ∈ l1, p x = false) : (l1 ++ l2).find? p = l2.find? p := by
  induction l1 with
  | nil => rfl
  | cons a l ih =>
    rw [List.cons_append, List.find?]
    rw [h a (List.mem_cons_self _ _)]
    exact ih (fun x hx => h x (List.mem_cons_of_mem _ hx))

/- ------------------------------------------------------------------ -/
/- Claim theorems                                                     -/
/- ------------------------------------------------------------------ -/

/-- C4: for every station code and optional bounds, get_by_airport returns
exactly the stored rows of that station whose observed_at lies within the
inclusive window (absent bound: unbounded on that side; inWindowSpec states
the window membership independently of the SQL condition list), ordered
ascending by observed_at.  The hypothesis restricts the store to rows whose
sky column is present, the shape of every valid Observation of the data
model. -/
theorem get_by_airport_window_sorted (db : MeteoDB) (icao : String) (s e : Option Nat)
    (hsky : ∀ row ∈ db.rows, row.sky.isSome = true) :
    ∃ rows : List MetarRow,
      rows.Perm (db.rows.filter
        (fun row => (row.icao_code == some icao) && inWindowSpec s e row.date_time)) ∧
      get_by_airport db icao s e = .ok (rows.map reportOfRow) ∧
      (rows.map reportOfRow).Pairwise reportLe := by
  have hfun : (fun row => (query_conditions icao s e).all (fun c => c row)) =
      (fun row => (row.icao_code == some icao) && inWindowSpec s e row.date_time) :=
    funext fun row => conds_eq_window icao s e row
  refine ⟨List.insertionSort rowLe
    (db.rows.filter (fun row => (query_conditions icao s e).all (fun c => c row))),
    ?_, ?_, ?_⟩
  · rw [hfun] at *
    exact List.perm_insertionSort _ _
  · exact mapReports_ok _ (fun row hrow => by
      have hmem : row ∈ db.rows := by
        have h1 := (List.mem_insertionSort rowLe).mp hrow
        exact (List.mem_filter.mp h1).1
      exact hsky row hmem)
  · have hs := List.sorted_insertionSort rowLe
      (db.rows.filter (fun row => (query_conditions icao s e).all (fun c => c row)))
    exact List.Pairwise.map reportOfRow (fun a b hab => hab) hs

/-- The three-observation station of the query-bounds test, with a fourth
row belonging to another station. -/
def dbWindow : MeteoDB :=
  { nextId := 5
    rows := [ mkRow 1 "EPWA" (some 1) (some 5) (some 10) (some 9000) (some 2) (some 1013)
            , mkRow 2 "EPWA" (some 2) (some 6) (some 11) (some 9100) (some 3) (some 1014)
            , mkRow 3 "EPWA" (some 3) (some 7) (some 12) (some 9200) (some 4) (some 1015)
            , mkRow 4 "EPGD" (some 2) (some 8) (some 13) (some 9300) (some 5) (some 1016) ] }

/-- C4 witness: the query bounds test of the spec on a concrete store with
observations at times 1 < 2 < 3 and window [1, 2]. -/
theorem get_by_airport_window_sorted_witness :
    ∃ rows : List MetarRow,
      rows.Perm (dbWindow.rows.filter
        (fun row => (row.icao_code == some "EPWA") && inWindowSpec (some 1) (some 2) row.date_time)) ∧
      get_by_airport dbWindow "EPWA" (some 1) (some 2) = .ok (rows.map reportOfRow) ∧
      (rows.map reportOfRow).Pairwise reportLe :=
  get_by_airport_window_sorted dbWindow "EPWA" (some 1) (some 2) (by decide)

/-- C5: for every valid observation o without an id — in the data model an
Observation carries a sky sequence, possibly empty, so o.sky is present —
inserting it into a well-formed store and fetching by the id assigned by
add_report returns an observation equal to o in every field except id. -/
theorem add_report_get_by_id_roundtrip (db : MeteoDB) (o : MetarReportIn)
    (hwf : db.WF) (hsky : o.sky.isSome = true) :
    ∃ r : MetarReport,
      (add_report db o).2 = .ok (some r) ∧
      r.toMetarReportIn = o ∧
      r.id = db.nextId ∧
      get_by_id (add_report db o).1 r.id = .ok (some r) := by
  obtain ⟨l, hl⟩ := Option.isSome_iff_exists.mp hsky
  have hfind : ((db.rows ++ [rowOfReport db.nextId o]).find?
      (fun row => row.id == db.nextId)) = some (rowOfReport db.nextId o) := by
    rw [find_append_right _ _ _ (fun x hx => by
      have := hwf x hx
      simp [Nat.ne_of_lt this])]
    simp [List.find?, rowOfReport]
  have hget : get_by_id (MeteoDB.mk (db.nextId + 1) (db.rows ++ [rowOfReport db.nextId o]))
      db.nextId = .ok (some (reportOfRow (rowOfReport db.nextId o))) := by
    unfold get_by_id
    simp only [hfind]
    simp [map_report, rowOfReport, hl]
  refine ⟨reportOfRow (rowOfReport db.nextId o), ?_, ?_, rfl, ?_⟩
  · exact hget
  · cases o
    simp_all [reportOfRow, rowOfReport, pickleDumps, pickleLoads]
  · exact hget

/-- An empty store. -/
def dbEmpty : MeteoDB := { nextId := 1, rows := [] }

/-- A valid observation without id: present sky (empty sequence), some
metrics absent. -/
def obsRound : MetarReportIn :=
  { icao_code := some "EPWA", date_time := some 7
    wind_speed := some 10, wind_direction := some 240, wind_var_from := none
    wind_var_to := none, wind_gust := none, rvr := some 9999
    rvr_direction := none, dew_point := none
    sky := some [], temp := some 12, qnh := some 1013 }

/-- C5 witness: the round trip on a concrete observation and the empty
store. -/
theorem add_report_get_by_id_roundtrip_witness :
    ∃ r : MetarReport,
      (add_report dbEmpty obsRound).2 = .ok (some r) ∧
      r.toMetarReportIn = obsRound ∧
      r.id = dbEmpty.nextId ∧
      get_by_id (add_report dbEmpty obsRound).1 r.id = .ok (some r) :=
  add_report_get_by_id_roundtrip dbEmpty obsRound (by decide) (by decide)

/-- A store holding exactly one row, with id 1. -/
def dbOne : MeteoDB :=
  { nextId := 2
    rows := [ mkRow 1 "EPWA" (some 1) (some 5) (some 10) (some 9000) (some 2) (some 1013) ] }

/-- C8 counterexample: on a store where the row with id 1 exists and the
delete removes it, remove_report still does not return the boolean true the
claim requires — it returns Python None. -/
theorem remove_report_no_boolean_counterexample :
    dbOne.rows.any (fun row => row.id == 1) = true ∧
    (remove_report dbOne 1).1.rows = [] ∧
    (remove_report dbOne 1).2 ≠ some true := by
  refine ⟨by decide, by decide, by decide⟩

/-- C8 (amended): remove_report returns Python None, never a boolean; the
row with the given id, if present, is removed (the un-awaited get_by_id
guard is always truthy, so the DELETE runs unconditionally), every other row
survives, and a subsequent get_by_id on that id finds nothing. -/
theorem remove_report_deletes_and_returns_none (db : MeteoDB) (rid : Nat) :
    (remove_report db rid).2 = none ∧
    get_by_id (remove_report db rid).1 rid = .ok none ∧
    (∀ row ∈ db.rows, row.id ≠ rid → row ∈ (remove_report db rid).1.rows) ∧
    (∀ row ∈ (remove_report db rid).1.rows, row.id ≠ rid ∧ row ∈ db.rows) := by
  refine ⟨rfl, ?_, ?_, ?_⟩
  · exact get_by_id_none_of_absent _ _ (fun x hx => by
      have := (List.mem_filter.mp hx).2
      simp_all)
  · intro row hmem hne
    exact List.mem_filter.mpr ⟨hmem, by simp [hne]⟩
  · intro row hmem
    have h := List.mem_filter.mp hmem
    refine ⟨by simpa using h.2, h.1⟩

/-- A store holding two rows, ids 1 and 2. -/
def dbTwo : MeteoDB :=
  { nextId := 3
    rows := [ mkRow 1 "EPWA" (some 1) (some 5) (some 10) (some 9000) (some 2) (some 1013)
            , mkRow 2 "EPGD" (some 2) (some 6) (some 11) (some 9100) (some 3) (some 1014) ] }

/-- C8 witness: deleting id 1 from the two-row store returns None, removes
the row, keeps the row with id 2, and get_by_id 1 afterwards finds
nothing. -/
theorem remove_report_deletes_and_returns_none_witness :
    (remove_report dbTwo 1).2 = none ∧
    get_by_id (remove_report dbTwo 1).1 1 = .ok none ∧
    mkRow 2 "EPGD" (some 2) (some 6) (some 11) (some 9100) (some 3) (some 1014) ∈
      (remove_report dbTwo 1).1.rows :=
  ⟨(remove_report_deletes_and_returns_none dbTwo 1).1,
   (remove_report_deletes_and_returns_none dbTwo 1).2.1,
   (remove_report_deletes_and_returns_none dbTwo 1).2.2.1 _ (by decide) (by decide)⟩

/-- Two observations of one station inside the window; the second lacks a
temperature, every other metric is present. -/
def dbAbsent : MeteoDB :=
  { nextId := 3
    rows := [ mkRow 1 "EPWA" (some 10) (some 5) (some 10) (some 9999) (some 2) (some 1013)
            , mkRow 2 "EPWA" (some 20) none (some 12) (some 8000) (some 3) (some 1015) ] }

/-- C1: the filtered set is non-empty (two observations, one with a present
temperature), yet get_stats raises TypeError — numpy reduces an object array
holding None — instead of computing min/mean/max over the present values
only. -/
theorem get_stats_typeerror_on_absent_metric :
    get_stats dbAbsent "EPWA" (some 0) (some 100) = .error PyError.typeError ∧
    (dbAbsent.rows.filter (fun row =>
      (row.icao_code == some "EPWA") && inWindowSpec (some 0) (some 100) row.date_time)).length = 2 := by
  refine ⟨rfl, by decide⟩

/-- A store whose only row belongs to another station. -/
def dbNoMatch : MeteoDB :=
  { nextId := 2
    rows := [ mkRow 1 "EPWA" (some 10) (some 5) (some 10) (some 9999) (some 2) (some 1013) ] }

/-- C2: on an empty filtered set get_stats raises numpy's ValueError
(zero-size reduction in min after the empty mean yielded NaN), not the
NoDataError the spec requires; no NoDataError exists anywhere in the code. -/
theorem get_stats_valueerror_on_empty_window :
    get_stats dbNoMatch "EPGD" (some 0) (some 100) = .error PyError.valueError ∧
    (dbNoMatch.rows.filter (fun row =>
      (row.icao_code == some "EPGD") && inWindowSpec (some 0) (some 100) row.date_time)).length = 0 := by
  refine ⟨rfl, by decide⟩

/-- One fully-populated observation of one station. -/
def dbFull : MeteoDB :=
  { nextId := 2
    rows := [ mkRow 1 "EPKK" (some 10) (some 5) (some 10) (some 9999) (some 2) (some 1013) ] }

/-- C6: the station has a matching observation with every metric present,
yet get_stats with both bounds absent raises pydantic ValidationError:
MeteoStatsDTO declares start_time and end_time as mandatory datetimes while
the service forwards the absent bounds into the DTO. -/
theorem get_stats_unbounded_validationerror :
    get_stats dbFull "EPKK" none none = .error PyError.validationError ∧
    (dbFull.rows.filter (fun row =>
      (row.icao_code == some "EPKK") && inWindowSpec none none row.date_time)).length = 1 := by
  refine ⟨rfl, by decide⟩

/-- The five stations of the collector test. -/
def airports5 : List Airport :=
  [ ⟨"AAAA", "alfa"⟩, ⟨"BBBB", "bravo"⟩, ⟨"CCCC", "charlie"⟩
  , ⟨"DDDD", "delta"⟩, ⟨"EEEE", "echo"⟩ ]

/-- The five-station environment of the collector test: AAAA answers with an
HTTP error status (caught), CCCC fails with a connection timeout (a
transport error, not a ClientResponseError), the other three serve a dated
body whose report line is the station code, and the ingestion endpoint
accepts every report. -/
def envAbort : CollectorEnv :=
  { fetch := fun icao =>
      if icao == "AAAA" then .httpError
      else if icao == "CCCC" then .transportError
      else .ok ["2026/02/03 12:00", icao]
    parseOk := fun _ => true }

/-- C3: with 5 stations of which 2 fail their fetch (one HTTP error, one
timeout) and 3 succeed, the spec-side per-station outcomes are 3 stored
reports, but the run does not complete without raising: only
aiohttp.ClientResponseError is caught per station, so the timeout propagates
through asyncio.gather and aborts the batch (a body of fewer than two lines
likewise raises an uncaught IndexError).  Which sibling tasks still finish
before asyncio.run tears the loop down is scheduling-dependent; the gather
model returns the first uncaught exception. -/
theorem collector_transport_error_aborts_batch :
    collector_main envAbort airports5 = .error PyError.connectionError ∧
    (airports5.filterMap (stationStored envAbort)).length = 3 := by
  refine ⟨rfl, by decide⟩

/-- C9: whenever the external source answers a station's fetch with a body
of the documented multi-line shape (a date header line followed by at least
one report line), fetch_metar returns exactly the first report line as the
raw report. -/
theorem fetch_metar_first_report_line (env : CollectorEnv) (icao : String) (b : SourceBody)
    (hf : env.fetch icao = .ok b.toText) (hne : b.reportLines ≠ []) :
    ∃ r rest, b.reportLines = r :: rest ∧ fetch_metar env icao = .ok (some r) := by
  cases hbl : b.reportLines with
  | nil => exact absurd hbl hne
  | cons r rest =>
    refine ⟨r, rest, rfl, ?_⟩
    unfold fetch_metar
    rw [hf]
    unfold extract_report SourceBody.toText
    rw [hbl]
    simp

/-- A two-report-line body. -/
def body9 : SourceBody :=
  { header := "2026/02/03 12:00"
    reportLines := ["METAR EPWA 031200Z 24010KT", "trailing line"] }

/-- The single-station environment serving body9 for EPWA. -/
def env9 : CollectorEnv :=
  { fetch := fun _ => .ok body9.toText
    parseOk := fun _ => true }

/-- C9 witness: on the concrete two-line body the extracted raw report is
the first report line. -/
theorem fetch_metar_first_report_line_witness :
    ∃ r rest, body9.reportLines = r :: rest ∧ fetch_metar env9 "EPWA" = .ok (some r) :=
  fetch_metar_first_report_line env9 "EPWA" body9 (by decide) (by decide)

/-- C7: whenever the station and time tokens of a report decode, parsing
succeeds and every measurable field of the resulting observation equals its
own independent sub-grammar decode over the token list — so a corrupt token
for one field leaves that field absent without touching any other field. -/
theorem from_text_report_field_independence (report : String)
    (hs : (decodeStation (tokenize report)).isSome = true)
    (ht : (decodeTime (tokenize report)).isSome = true) :
    ∃ r : MetarReportIn,
      MetarReportIn.from_text_report report = .ok r ∧
      r.wind_speed = decodeWindSpeed (tokenize report) ∧
      r.temp = decodeTemp (tokenize report) ∧
      r.dew_point = decodeDewpt (tokenize report) ∧
      r.rvr = decodeVis (tokenize report) ∧
      r.qnh = decodePress (tokenize report) ∧
      r.icao_code = decodeStation (tokenize report) := by
  obtain ⟨st, hst⟩ := Option.isSome_iff_exists.mp hs
  obtain ⟨tm, htm⟩ := Option.isSome_iff_exists.mp ht
  unfold MetarReportIn.from_text_report Metar.parse
  dsimp only
  rw [hst, htm]
  exact ⟨_, rfl, rfl, rfl, rfl, rfl, rfl, rfl⟩

/-- A report whose wind token is corrupt while station, time, temperature
and pressure tokens are valid. -/
def reportCorruptWind : String := "EPWA 121200Z X1!!0KT 12/08 Q1013"

/-- C7 witness: the corrupt-wind report parses, wind_speed is absent and
temperature is present. -/
theorem from_text_report_field_independence_witness :
    ∃ r : MetarReportIn,
      MetarReportIn.from_text_report reportCorruptWind = .ok r ∧
      r.wind_speed = none ∧
      r.temp = some 12 := by
  obtain ⟨r, hok, hw, htp, _⟩ :=
    from_text_report_field_independence reportCorruptWind (by decide) (by decide)
  exact ⟨r, hok, hw.trans (by decide), htp.trans (by decide)⟩

/-- get_by_id after an insert into a well-formed store finds the freshly
inserted row and maps it back. -/
theorem get_by_id_after_insert (db : MeteoDB) (o : MetarReportIn) (hwf : db.WF)
    {l : List SkyLayer} (hl : o.sky = some l) :
    get_by_id (db.insert o).1 (db.insert o).2 =
      .ok (some (reportOfRow (rowOfReport db.nextId o))) := by
  have hfind : ((db.rows ++ [rowOfReport db.nextId o]).find?
      (fun row => row.id == db.nextId)) = some (rowOfReport db.nextId o) := by
    rw [find_append_right _ _ _ (fun x hx => by
      have := hwf x hx
      simp [Nat.ne_of_lt this])]
    simp [List.find?, rowOfReport]
  unfold MeteoDB.insert get_by_id
  simp only [hfind]
  simp [map_report, rowOfReport, hl]

/-- C10: every observation produced by the text-report path has a present
sky field holding a list (possibly empty, never None); consequently
add_text_report on any well-formed store succeeds — the stored row's sky
column is non-NULL, so the read-side unpickling of _map_report applies — and
the stored form carries the same sky list. -/
theorem text_report_sky_always_present (report : String) (r : MetarReportIn)
    (h : MetarReportIn.from_text_report report = .ok r) :
    ∃ l : List SkyLayer, r.sky = some l ∧
      ∀ db : MeteoDB, db.WF →
        ∃ m : MetarReport, (add_text_report db report).2 = .ok (some m) ∧ m.sky = some l := by
  have hsky : ∃ l : List SkyLayer, r.sky = some l := by
    have h2 := h
    unfold MetarReportIn.from_text_report at h2
    cases hp : Metar.parse report with
    | error e =>
      rw [hp] at h2
      exact absurd h2 (by simp)
    | ok obs =>
      rw [hp] at h2
      have hr : ({ icao_code := some obs.station_id
                   date_time := some obs.time
                   wind_speed := obs.wind_speed
                   wind_direction := obs.wind_dir
                   wind_var_from := obs.wind_dir_from
                   wind_var_to := obs.wind_dir_to
                   wind_gust := obs.wind_gust
                   rvr := obs.vis
                   rvr_direction := obs.vis_dir
                   dew_point := obs.dewpt
                   sky := some (obs.sky.map (fun x => (x.1, x.2)))
                   temp := obs.temp
                   qnh := obs.press } : MetarReportIn) = r := by
        cases h2
        rfl
      exact ⟨obs.sky.map (fun x => (x.1, x.2)), by rw [← hr]⟩
  obtain ⟨l, hl⟩ := hsky
  refine ⟨l, hl, ?_⟩
  intro db hwf
  refine ⟨reportOfRow (rowOfReport db.nextId r), ?_, ?_⟩
  · unfold add_text_report
    rw [h]
    exact get_by_id_after_insert db r hwf hl
  · simp [reportOfRow, rowOfReport, hl, pickleDumps, pickleLoads]

/-- A fully-featured valid report. -/
def reportFull : String := "EPWA 121200Z 24010KT 9999 FEW030 12/08 Q1013"

/-- The observation reportFull parses into. -/
def obsFull : MetarReportIn :=
  { icao_code := some "EPWA", date_time := some 121200
    wind_speed := some 10, wind_direction := some 240, wind_var_from := none
    wind_var_to := none, wind_gust := none, rvr := some 9999
    rvr_direction := none, dew_point := some 8
    sky := some [("FEW", some 3000)], temp := some 12, qnh := some 1013 }

/-- C10 witness: the concrete report yields a present sky list and its
insertion into the empty store through the text path succeeds with the same
sky list on the stored form. -/
theorem text_report_sky_always_present_witness :
    ∃ l : List SkyLayer, obsFull.sky = some l ∧
      ∃ m : MetarReport, (add_text_report dbEmpty reportFull).2 = .ok (some m) ∧
        m.sky = some l := by
  obtain ⟨l, hl, hall⟩ := text_report_sky_always_present reportFull obsFull (by rfl)
  obtain ⟨m, hm, hms⟩ := hall dbEmpty (by decide)
  exact ⟨l, hl, m, hm, hms⟩
